import Mathlib

/-!
Shallow embedding of the trap / system-call core of a JOS-style exokernel
(kern/trap.c and the system-call surface).  Pure kernel state is modelled
explicitly: machine words are Nat values of 32-bit bit patterns, per-environment
page directories are association lists from page-aligned virtual addresses to
page-table entries, and the physical page allocator is a reference-counted free
list.  Functions from headers and collaborator modules that are not part of the
source tree (inc/mmu.h, inc/memlayout.h, inc/error.h, kern/pmap.c, kern/env.c)
are modelled from the specification and carry doc comments saying so.
-/

/-- Modelled from the spec: page size of the MMU, 4 KiB granularity
(inc/mmu.h is not in the source tree). -/
def PGSIZE : Nat := 4096

/-- Modelled from the spec: highest user-mappable virtual address
(inc/memlayout.h is not in the source tree). -/
def UTOP : Nat := 0xEEC00000

/-- Modelled from the spec: top of the user exception stack; the exception
stack is the page just below it (inc/memlayout.h is not in the source tree). -/
def UXSTACKTOP : Nat := 0xEEC00000

/-- Modelled from the spec: page-table entry present bit (inc/mmu.h). -/
def PTE_P : Nat := 0x001

/-- Modelled from the spec: page-table entry writable bit (inc/mmu.h). -/
def PTE_W : Nat := 0x002

/-- Modelled from the spec: page-table entry user bit (inc/mmu.h). -/
def PTE_U : Nat := 0x004

/-- Modelled from the spec: write-through bit (inc/mmu.h). -/
def PTE_PWT : Nat := 0x008

/-- Modelled from the spec: cache-disable bit (inc/mmu.h). -/
def PTE_PCD : Nat := 0x010

/-- Modelled from the spec: bits available for OS use (inc/mmu.h). -/
def PTE_AVAIL : Nat := 0xE00

/-- Modelled from the spec: the permission bits a user may set on a mapping
through a system call are exactly present, writable, user, write-through,
cache-disable and the available bits (inc/mmu.h is not in the source tree). -/
def PTE_SYSCALL : Nat := PTE_AVAIL ||| PTE_PWT ||| PTE_PCD ||| PTE_P ||| PTE_W ||| PTE_U

/-- Modelled from the spec: user code segment selector (inc/memlayout.h). -/
def GD_UT : Nat := 0x18

/-- Modelled from the spec: user data segment selector (inc/memlayout.h). -/
def GD_UD : Nat := 0x20

/-- Modelled from the spec: interrupt-enable bit of the flags word (inc/mmu.h). -/
def FL_IF : Nat := 0x200

/-- Modelled from the spec: I/O privilege level bits of the flags word
(inc/mmu.h). -/
def FL_IOPL_MASK : Nat := 0x3000

/-- Modelled from the spec: error code for a bad environment id (inc/error.h
is not in the source tree; only distinctness of the codes matters). -/
def E_BAD_ENV : Nat := 2

/-- Modelled from the spec: error code for an invalid argument (inc/error.h). -/
def E_INVAL : Nat := 3

/-- Modelled from the spec: error code for memory exhaustion (inc/error.h). -/
def E_NO_MEM : Nat := 4

/-- Modelled from the spec: error code for no free environment (inc/error.h). -/
def E_NO_FREE_ENV : Nat := 5

/-- Modelled from the spec: error code returned by the user-memory check
(inc/error.h). -/
def E_FAULT : Nat := 6

/-- Modelled from the spec: error code for a target not receive-blocked
(inc/error.h). -/
def E_IPC_NOT_RECV : Nat := 7

/-- Modelled from the spec: flag asking the page allocator for a zeroed frame
(kern/pmap.h is not in the source tree). -/
def ALLOC_ZERO : Nat := 1

/-- All-ones 32-bit word, used to model the C bitwise complement of a 32-bit
quantity. -/
def mask32 : Nat := 0xFFFFFFFF

/-- Bitwise complement within a 32-bit word, modelling the C unary tilde on
the int-sized masks used by the permission checks. -/
def compl32 (m : Nat) : Nat := mask32 ^^^ m

/-- Modelled from the spec: byte size of a User Trap Frame, thirteen 32-bit
words (inc/trap.h is not in the source tree): faulting address, error code,
eight general-purpose registers, instruction pointer, flags, stack pointer. -/
def SIZEOF_UTRAPFRAME : Nat := 52

/-- Modelled from the spec: byte size of a Trap Frame (inc/trap.h is not in
the source tree). -/
def SIZEOF_TRAPFRAME : Nat := 68

/-- General-purpose register block, in the order the entry stubs push it
(struct PushRegs). -/
structure PushRegs where
  reg_edi : Nat
  reg_esi : Nat
  reg_ebp : Nat
  reg_oesp : Nat
  reg_ebx : Nat
  reg_edx : Nat
  reg_ecx : Nat
  reg_eax : Nat
  deriving DecidableEq

/-- Saved CPU state at kernel entry (struct Trapframe). -/
structure Trapframe where
  tf_regs : PushRegs
  tf_es : Nat
  tf_ds : Nat
  tf_trapno : Nat
  tf_err : Nat
  tf_eip : Nat
  tf_cs : Nat
  tf_eflags : Nat
  tf_esp : Nat
  tf_ss : Nat
  deriving DecidableEq

/-- Frame delivered to a user-mode page-fault handler (struct UTrapframe). -/
structure UTrapframe where
  utf_fault_va : Nat
  utf_err : Nat
  utf_regs : PushRegs
  utf_eip : Nat
  utf_eflags : Nat
  utf_esp : Nat
  deriving DecidableEq

/-- Environment lifecycle status (enum in inc/env.h). -/
inductive EnvStatus where
  | ENV_FREE
  | ENV_DYING
  | ENV_RUNNABLE
  | ENV_RUNNING
  | ENV_NOT_RUNNABLE
  deriving DecidableEq

/-- One page-table entry: the physical page it names and its permission bits. -/
structure PgEntry where
  page : Nat
  perm : Nat
  deriving DecidableEq

/-- The full 32-bit page-table-entry word an entry denotes: physical frame
address with the permission bits in the low twelve bits. -/
def pteWord (e : PgEntry) : Nat := e.page * PGSIZE ||| e.perm

/-- Modelled from the spec: a per-environment page directory (the AddressSpace
collaborator; kern/pmap.c is not in the source tree), as a finite map from
page-aligned virtual addresses to page-table entries. -/
abbrev PgDir := List (Nat × PgEntry)

/-- Look up the page-table entry at a virtual address. -/
def pgLookup (pd : PgDir) (va : Nat) : Option PgEntry :=
  (pd.find? (fun kv => kv.1 == va)).map (fun kv => kv.2)

/-- Drop any entry at a virtual address. -/
def pgErase (pd : PgDir) (va : Nat) : PgDir :=
  pd.filter (fun kv => kv.1 != va)

/-- Install an entry at a virtual address, replacing any previous one. -/
def pgSet (pd : PgDir) (va : Nat) (e : PgEntry) : PgDir :=
  (va, e) :: pgErase pd va

/-- Modelled from the spec: the reference-counted physical page allocator
(the PageAllocator collaborator; kern/pmap.c is not in the source tree).
The refcnt field maps allocated frames to their mapping counts, freePages is
the allocator free list, and zeroed records which frames are known
zero-filled (no operation in the modelled core writes page contents). -/
structure PhysMem where
  refcnt : List (Nat × Nat)
  freePages : List Nat
  zeroed : List Nat
  deriving DecidableEq

/-- Reference count of a frame; frames without an entry count zero. -/
def refGet (l : List (Nat × Nat)) (p : Nat) : Nat :=
  ((l.find? (fun kv => kv.1 == p)).map (fun kv => kv.2)).getD 0

/-- Drop a frame's reference-count entry. -/
def refErase (l : List (Nat × Nat)) (p : Nat) : List (Nat × Nat) :=
  l.filter (fun kv => kv.1 != p)

/-- Set a frame's reference count. -/
def refSet (l : List (Nat × Nat)) (p c : Nat) : List (Nat × Nat) :=
  (p, c) :: refErase l p

/-- Modelled from the spec: increment a frame's mapping reference count
(page_insert increments; kern/pmap.c is not in the source tree). -/
def physIncref (ph : PhysMem) (p : Nat) : PhysMem :=
  { ph with refcnt := refSet ph.refcnt p (refGet ph.refcnt p + 1) }

/-- Modelled from the spec: return a frame to the allocator free list
(page_free in kern/pmap.c, not in the source tree). -/
def page_free (ph : PhysMem) (p : Nat) : PhysMem :=
  { ph with freePages := p :: ph.freePages }

/-- Modelled from the spec: decrement a frame's reference count, returning the
frame to the allocator when the count reaches zero (page_decref in
kern/pmap.c, not in the source tree). -/
def physDecref (ph : PhysMem) (p : Nat) : PhysMem :=
  let c := refGet ph.refcnt p
  if c - 1 = 0 then page_free { ph with refcnt := refErase ph.refcnt p } p
  else { ph with refcnt := refSet ph.refcnt p (c - 1) }

/-- Modelled from the spec: take a frame off the allocator free list, zeroing
it when the ALLOC_ZERO flag is passed; fails when no frame is free
(page_alloc in kern/pmap.c, not in the source tree). -/
def page_alloc (ph : PhysMem) (flags : Nat) : Option (Nat × PhysMem) :=
  match ph.freePages with
  | [] => none
  | p :: rest =>
    if flags &&& ALLOC_ZERO ≠ 0 then
      some (p, { ph with freePages := rest, zeroed := p :: ph.zeroed.filter (fun q => q != p) })
    else
      some (p, { ph with freePages := rest, zeroed := ph.zeroed.filter (fun q => q != p) })

/-- Modelled from the spec: remove the mapping at a virtual address,
decrementing the mapped frame's reference count; silently does nothing when
the address is unmapped (page_remove in kern/pmap.c, not in the source
tree). -/
def page_remove (ph : PhysMem) (pd : PgDir) (va : Nat) : PhysMem × PgDir :=
  match pgLookup pd va with
  | none => (ph, pd)
  | some e => (physDecref ph e.page, pgErase pd va)

/-- Modelled from the spec: map a frame at a virtual address with the given
permissions, incrementing the frame's reference count first and then removing
any mapping previously at that address (page_insert in kern/pmap.c, not in
the source tree; page-table interior nodes are not modelled, so the insert
itself cannot fail for want of a page table). -/
def page_insert (ph : PhysMem) (pd : PgDir) (page va perm : Nat) : PhysMem × PgDir :=
  let ph1 := physIncref ph page
  let rp := page_remove ph1 pd va
  (rp.1, pgSet rp.2 va { page := page, perm := perm })

/-- A user environment (struct Env), with the fields the trap and system-call
core reads and writes.  The page-fault upcall is a code address, zero when
none is registered, matching the C null-pointer test. -/
structure Env where
  env_id : Nat
  env_parent_id : Nat
  env_status : EnvStatus
  env_tf : Trapframe
  env_pgfault_upcall : Nat
  env_ipc_recving : Bool
  env_ipc_dstva : Nat
  env_ipc_from : Nat
  env_ipc_value : Nat
  env_ipc_perm : Nat
  env_pgdir : PgDir
  deriving DecidableEq

/-- An all-zero trap frame, used only as the default of total lookups. -/
def defaultTF : Trapframe :=
  { tf_regs := { reg_edi := 0, reg_esi := 0, reg_ebp := 0, reg_oesp := 0,
                 reg_ebx := 0, reg_edx := 0, reg_ecx := 0, reg_eax := 0 },
    tf_es := 0, tf_ds := 0, tf_trapno := 0, tf_err := 0, tf_eip := 0,
    tf_cs := 0, tf_eflags := 0, tf_esp := 0, tf_ss := 0 }

/-- Default environment record, used only as the default of total lookups. -/
def defaultEnv : Env :=
  { env_id := 0, env_parent_id := 0, env_status := EnvStatus.ENV_FREE,
    env_tf := defaultTF, env_pgfault_upcall := 0, env_ipc_recving := false,
    env_ipc_dstva := 0, env_ipc_from := 0, env_ipc_value := 0,
    env_ipc_perm := 0, env_pgdir := [] }

/-- Kernel state seen by the system-call surface: the physical allocator, the
environment table, the identity of the current environment, and the ids the
environment allocator may still hand out. -/
structure KState where
  phys : PhysMem
  envs : List Env
  curenv_id : Nat
  free_env_ids : List Nat
  deriving DecidableEq

/-- Find the environment with a given id. -/
def lookupEnv (st : KState) (id : Nat) : Option Env :=
  st.envs.find? (fun e => e.env_id == id)

/-- Total version of lookupEnv, defaulting when the id is absent. -/
def envGetD (st : KState) (id : Nat) : Env :=
  (lookupEnv st id).getD defaultEnv

/-- Rewrite every environment carrying the given id. -/
def envUpdate (st : KState) (id : Nat) (f : Env → Env) : KState :=
  { st with envs := st.envs.map (fun e => if e.env_id = id then f e else e) }

/-- The current environment; the trap dispatcher guarantees one exists
whenever a system call runs, so the default is never reached on the modelled
paths. -/
def curEnvD (st : KState) : Env := envGetD st st.curenv_id

/-- Modelled from the spec: EnvStore lookup by id with the caller-permission
check (envid2env in kern/env.c, not in the source tree).  Id zero denotes the
caller; a FREE environment does not resolve; with checkperm the target must
be the caller itself or a direct child of the caller. -/
def envid2env (st : KState) (envid : Nat) (checkperm : Bool) : Option Env :=
  if envid = 0 then lookupEnv st st.curenv_id
  else
    match lookupEnv st envid with
    | none => none
    | some e =>
      if e.env_status = EnvStatus.ENV_FREE then none
      else if checkperm ∧ e.env_id ≠ st.curenv_id ∧ e.env_parent_id ≠ st.curenv_id then none
      else some e

/-- Modelled from the spec: check that every page overlapping the byte range
of the given length at the given address is mapped with at least the required
permission bits (user_mem_check / user_mem_assert in kern/pmap.c, not in the
source tree). -/
def user_mem_check_range (pd : PgDir) (va len perm : Nat) : Bool :=
  (List.range ((va % PGSIZE + len + PGSIZE - 1) / PGSIZE)).all (fun i =>
    match pgLookup pd ((va / PGSIZE + i) * PGSIZE) with
    | some e => (e.perm &&& perm) == perm
    | none => false)

/-- Modelled from the spec: EnvStore allocation (env_alloc in kern/env.c, not
in the source tree): take a fresh id, append a new environment with that id
and the given parent; the new environment starts RUNNABLE with a default
frame, which sys_exofork immediately overwrites. -/
def newEnv (id parent : Nat) : Env :=
  { env_id := id, env_parent_id := parent, env_status := EnvStatus.ENV_RUNNABLE,
    env_tf := defaultTF, env_pgfault_upcall := 0, env_ipc_recving := false,
    env_ipc_dstva := 0, env_ipc_from := 0, env_ipc_value := 0,
    env_ipc_perm := 0, env_pgdir := [] }

/-- Modelled from the spec: EnvStore allocation entry point (env_alloc in
kern/env.c, not in the source tree); fails when no environment id is free. -/
def env_alloc (st : KState) (parent : Nat) : Option (Nat × KState) :=
  match st.free_env_ids with
  | [] => none
  | i :: rest =>
    some (i, { st with free_env_ids := rest, envs := st.envs ++ [newEnv i parent] })

/-- The shared permission-word check of sys_page_alloc, sys_page_map and
sys_ipc_try_send: user and present must both be set and no bit outside
PTE_SYSCALL may be set. -/
def badPerm (perm : Nat) : Prop :=
  (perm &&& (PTE_U ||| PTE_P)) ≠ (PTE_U ||| PTE_P) ∨ perm &&& compl32 PTE_SYSCALL ≠ 0

instance (perm : Nat) : Decidable (badPerm perm) := by
  unfold badPerm
  infer_instance

/-- Update the IPC bookkeeping of the destination environment on a successful
send, mirroring the tail of sys_ipc_try_send: clear the receive flag, record
sender, value and permissions, mark the destination RUNNABLE and set its
saved result register to zero. -/
def ipcFinish (st : KState) (targetId senderId value perm : Nat) : KState :=
  envUpdate st targetId (fun e =>
    { e with env_ipc_recving := false,
             env_ipc_from := senderId,
             env_ipc_value := value,
             env_ipc_perm := perm,
             env_status := EnvStatus.ENV_RUNNABLE,
             env_tf := { e.env_tf with
                         tf_regs := { e.env_tf.tf_regs with reg_eax := 0 } } })

/-- Translation of sys_page_alloc (kern/trap.c): resolve the target with the
caller-permission check, validate the address and the permission word,
allocate a zeroed frame and install it.  The return value pairs the C result
register with the resulting kernel state. -/
def sys_page_alloc (st : KState) (envid va perm : Nat) : Int × KState :=
  match envid2env st envid true with
  | none => (-(E_BAD_ENV : Int), st)
  | some e =>
    if UTOP ≤ va ∨ va % PGSIZE ≠ 0 then (-(E_INVAL : Int), st)
    else if badPerm perm then (-(E_INVAL : Int), st)
    else
      match page_alloc st.phys ALLOC_ZERO with
      | none => (-(E_NO_MEM : Int), st)
      | some (pp, ph1) =>
        let ins := page_insert ph1 e.env_pgdir pp va perm
        (0, envUpdate { st with phys := ins.1 } e.env_id
              (fun en => { en with env_pgdir := ins.2 }))

/-- Translation of sys_page_map (kern/trap.c): resolve both environments with
the caller-permission check, validate both addresses and the permission word,
look up the source mapping, refuse to grant write access to a read-only
source mapping, and install the same frame in the destination. -/
def sys_page_map (st : KState) (srcenvid srcva dstenvid dstva perm : Nat) : Int × KState :=
  match envid2env st srcenvid true with
  | none => (-(E_BAD_ENV : Int), st)
  | some srcenv =>
    match envid2env st dstenvid true with
    | none => (-(E_BAD_ENV : Int), st)
    | some dstenv =>
      if UTOP ≤ srcva ∨ srcva % PGSIZE ≠ 0 then (-(E_INVAL : Int), st)
      else if UTOP ≤ dstva ∨ dstva % PGSIZE ≠ 0 then (-(E_INVAL : Int), st)
      else if badPerm perm then (-(E_INVAL : Int), st)
      else
        match pgLookup srcenv.env_pgdir srcva with
        | none => (-(E_INVAL : Int), st)
        | some entry =>
          if perm &&& PTE_W ≠ 0 ∧ pteWord entry &&& PTE_W = 0 then (-(E_INVAL : Int), st)
          else
            let ins := page_insert st.phys dstenv.env_pgdir entry.page dstva perm
            (0, envUpdate { st with phys := ins.1 } dstenv.env_id
                  (fun en => { en with env_pgdir := ins.2 }))

/-- Translation of sys_page_unmap (kern/trap.c): resolve the target with the
caller-permission check, validate the address, and remove whatever mapping is
there; removing an unmapped address silently succeeds. -/
def sys_page_unmap (st : KState) (envid va : Nat) : Int × KState :=
  match envid2env st envid true with
  | none => (-(E_BAD_ENV : Int), st)
  | some e =>
    if UTOP ≤ va ∨ va % PGSIZE ≠ 0 then (-(E_INVAL : Int), st)
    else
      let rm := page_remove st.phys e.env_pgdir va
      (0, envUpdate { st with phys := rm.1 } e.env_id
            (fun en => { en with env_pgdir := rm.2 }))

/-- Translation of sys_env_set_trapframe (kern/trap.c).  The C function takes
a user pointer to a frame and copies through it; the model takes both the
pointer, checked for user readability in the target address space, and the
frame value the copy would read.  After the copy the segment selectors are
clamped to the user selectors with RPL 3, the interrupt-enable flag is
forced on and the I/O privilege level bits are forced to zero. -/
def sys_env_set_trapframe (st : KState) (envid tfPtr : Nat) (tfVal : Trapframe) : Int × KState :=
  match envid2env st envid true with
  | none => (-(E_BAD_ENV : Int), st)
  | some e =>
    if user_mem_check_range e.env_pgdir tfPtr SIZEOF_TRAPFRAME PTE_U = false then
      (-(E_FAULT : Int), st)
    else
      (0, envUpdate st e.env_id (fun en =>
        { en with env_tf :=
          { tfVal with
            tf_ds := GD_UD ||| 3,
            tf_es := GD_UD ||| 3,
            tf_ss := GD_UD ||| 3,
            tf_cs := GD_UT ||| 3,
            tf_eflags := (tfVal.tf_eflags ||| FL_IF) &&& compl32 FL_IOPL_MASK } }))

/-- Translation of sys_exofork (kern/trap.c): allocate a new environment with
the caller as parent, mark it NOT_RUNNABLE, copy the caller's saved frame
into it with the result register forced to zero, and return the child id. -/
def sys_exofork (st : KState) : Int × KState :=
  match env_alloc st (curEnvD st).env_id with
  | none => (-(E_NO_FREE_ENV : Int), st)
  | some (cid, st1) =>
    (Int.ofNat cid,
     envUpdate st1 cid (fun en =>
       { en with env_status := EnvStatus.ENV_NOT_RUNNABLE,
                 env_tf := { (curEnvD st).env_tf with
                             tf_regs := { (curEnvD st).env_tf.tf_regs with
                                          reg_eax := 0 } } }))

/-- Translation of sys_ipc_try_send (kern/trap.c).  The destination is
resolved without the caller-permission check.  A destination that is not
receive-blocked fails IPC_NOT_RECV.  A destination whose advertised receive
address is at or above UTOP skips every source-side check and records zero
permissions.  Otherwise a source address below UTOP is validated for
alignment, permission word and presence of a mapping; the write-permission
check is transcribed faithfully, including the source's use of a bitwise or
where the surrounding checks use a bitwise and, so its guard can never
fire.  On success the destination frame is mapped and the IPC fields are
updated. -/
def sys_ipc_try_send (st : KState) (envid value srcva perm : Nat) : Int × KState :=
  match envid2env st envid false with
  | none => (-(E_BAD_ENV : Int), st)
  | some e =>
    if e.env_ipc_recving = false then (-(E_IPC_NOT_RECV : Int), st)
    else if ¬ e.env_ipc_dstva < UTOP then
      (0, ipcFinish st e.env_id (curEnvD st).env_id value 0)
    else if srcva < UTOP then
      if srcva % PGSIZE ≠ 0 then (-(E_INVAL : Int), st)
      else if badPerm perm then (-(E_INVAL : Int), st)
      else
        match pgLookup (curEnvD st).env_pgdir srcva with
        | none => (-(E_INVAL : Int), st)
        | some entry =>
          if perm &&& PTE_W ≠ 0 ∧ pteWord entry ||| PTE_W = 0 then (-(E_INVAL : Int), st)
          else
            let ins := page_insert st.phys e.env_pgdir entry.page e.env_ipc_dstva perm
            let st1 := envUpdate { st with phys := ins.1 } e.env_id
                         (fun en => { en with env_pgdir := ins.2 })
            (0, ipcFinish st1 e.env_id (curEnvD st).env_id value perm)
    else
      (0, ipcFinish st e.env_id (curEnvD st).env_id value 0)

/-- Translation of sys_ipc_recv (kern/trap.c): a receive address below UTOP
must be page-aligned; record the receive-blocked state and the destination
address and become NOT_RUNNABLE. -/
def sys_ipc_recv (st : KState) (dstva : Nat) : Int × KState :=
  if dstva < UTOP ∧ dstva % PGSIZE ≠ 0 then (-(E_INVAL : Int), st)
  else
    (0, envUpdate st st.curenv_id (fun en =>
      { en with env_ipc_recving := true,
                env_ipc_dstva := dstva,
                env_status := EnvStatus.ENV_NOT_RUNNABLE }))

/-- Outcome of the user page-fault reflection path. -/
inductive PFResult where
  | resume (e : Env) (writeAddr : Nat) (utf : UTrapframe)
  | destroyEnv
  | kernelPanic
  deriving DecidableEq

/-- Translation of page_fault_handler (kern/trap.c).  A kernel-mode fault
panics.  With a registered upcall, a User Trap Frame is built from the saved
frame; when the trap-time stack pointer already lies on the exception stack
the new frame goes four bytes (one scratch word) below it, otherwise at the
top of the exception-stack page; writability of the landing range is
asserted (destroying the environment on failure), the frame is written there
and the environment resumes at the upcall with its stack pointer at the
frame.  Without an upcall the environment is destroyed. -/
def page_fault_handler (cur : Env) (fault_va : Nat) : PFResult :=
  if cur.env_tf.tf_cs &&& 3 = 0 then PFResult.kernelPanic
  else if cur.env_pgfault_upcall ≠ 0 then
    let tf := cur.env_tf
    let utf : UTrapframe :=
      { utf_fault_va := fault_va, utf_err := tf.tf_err, utf_regs := tf.tf_regs,
        utf_eip := tf.tf_eip, utf_eflags := tf.tf_eflags, utf_esp := tf.tf_esp }
    let esp1 := if UXSTACKTOP - PGSIZE ≤ tf.tf_esp ∧ tf.tf_esp < UXSTACKTOP
                then tf.tf_esp - 4 else UXSTACKTOP
    let esp2 := esp1 - SIZEOF_UTRAPFRAME
    if user_mem_check_range cur.env_pgdir esp2 SIZEOF_UTRAPFRAME (PTE_U ||| PTE_W ||| PTE_P) then
      PFResult.resume
        { cur with env_tf := { tf with tf_esp := esp2, tf_eip := cur.env_pgfault_upcall } }
        esp2 utf
    else PFResult.destroyEnv
  else PFResult.destroyEnv

/-- A concrete user-mode trap frame used by the concrete-state tests. -/
def tf0 : Trapframe :=
  { tf_regs := { reg_edi := 1, reg_esi := 2, reg_ebp := 3, reg_oesp := 4,
                 reg_ebx := 5, reg_edx := 6, reg_ecx := 7, reg_eax := 8 },
    tf_es := 0x23, tf_ds := 0x23, tf_trapno := 0, tf_err := 0,
    tf_eip := 0x800100, tf_cs := 0x1B, tf_eflags := 0x200,
    tf_esp := 0xEEBFD000, tf_ss := 0x23 }

/-- Concrete caller environment: id 1, running, with a read-only mapping at
0x2000 (frame 7, user and present only) and a writable mapping at 0x3000
(frame 8). -/
def curEnv0 : Env :=
  { env_id := 1, env_parent_id := 0, env_status := EnvStatus.ENV_RUNNING,
    env_tf := tf0, env_pgfault_upcall := 0, env_ipc_recving := false,
    env_ipc_dstva := 0, env_ipc_from := 0, env_ipc_value := 0,
    env_ipc_perm := 0,
    env_pgdir := [(0x2000, { page := 7, perm := 5 }), (0x3000, { page := 8, perm := 7 })] }

/-- Concrete destination environment: id 2, child of 1, receive-blocked with
an advertised receive address 0x1000 below UTOP, and a user-readable mapping
at 0x5000 (frame 9). -/
def destEnv0 : Env :=
  { env_id := 2, env_parent_id := 1, env_status := EnvStatus.ENV_NOT_RUNNABLE,
    env_tf := tf0, env_pgfault_upcall := 0, env_ipc_recving := true,
    env_ipc_dstva := 0x1000, env_ipc_from := 0, env_ipc_value := 0,
    env_ipc_perm := 0,
    env_pgdir := [(0x5000, { page := 9, perm := 5 })] }

/-- Concrete destination environment advertising a receive address at UTOP,
so no page can be transferred to it. -/
def destEnvHi : Env :=
  { destEnv0 with env_id := 3, env_ipc_dstva := UTOP }

/-- Concrete kernel state with caller 1 and receive-blocked destinations 2
(receive address below UTOP) and 3 (receive address at UTOP). -/
def stA : KState :=
  { phys := { refcnt := [(7, 1), (8, 1), (9, 1)], freePages := [20, 21], zeroed := [] },
    envs := [curEnv0, destEnv0, destEnvHi],
    curenv_id := 1,
    free_env_ids := [5, 6] }

/-- Concrete faulting environment for the page-fault upcall tests: upcall
registered, trap-time stack pointer at the very last byte of the exception
stack, and the exception-stack page mapped user-writable. -/
def pfEnv0 : Env :=
  { env_id := 4, env_parent_id := 1, env_status := EnvStatus.ENV_RUNNING,
    env_tf := { tf0 with tf_esp := UXSTACKTOP - 1 },
    env_pgfault_upcall := 0x800000, env_ipc_recving := false,
    env_ipc_dstva := 0, env_ipc_from := 0, env_ipc_value := 0,
    env_ipc_perm := 0,
    env_pgdir := [(UXSTACKTOP - PGSIZE, { page := 11, perm := 7 })] }

theorem find?_map_pred {α : Type} (l : List α) (g : α → α) (p : α → Bool)
    (hpg : ∀ e, p (g e) = p e) :
    (l.map g).find? p = (l.find? p).map g := by
  have hfun : (p ∘ g) = p := funext hpg
  rw [List.find?_map, hfun]

theorem find?_filter_ne_none {β : Type} (l : List (Nat × β)) (k : Nat) :
    (l.filter (fun kv => kv.1 != k)).find? (fun kv => kv.1 == k) = none := by
  induction l with
  | nil => rfl
  | cons kv t ih =>
    by_cases h : kv.1 = k
    · simp only [List.filter_cons, h]
      simp only [bne_self_eq_false, Bool.false_eq_true, if_false]
      exact ih

    · simp only [List.filter_cons]
      have h1 : (kv.1 != k) = true := by simp [h]
      rw [h1]
      simp only [if_true]
      rw [List.find?_cons_of_neg _ (by simp [h])]
      exact ih

theorem find?_filter_ne_other {β : Type} (l : List (Nat × β)) (p q : Nat) (h : q ≠ p) :
    (l.filter (fun kv => kv.1 != p)).find? (fun kv => kv.1 == q)
      = l.find? (fun kv => kv.1 == q) := by
  induction l with
  | nil => rfl
  | cons kv t ih =>
    by_cases hk : kv.1 = p
    · have h1 : (kv.1 != p) = false := by simp [hk]
      rw [List.filter_cons, h1]
      simp only [Bool.false_eq_true, if_false]
      rw [ih, List.find?_cons_of_neg _ (by simp [hk]; omega)]
    · have h1 : (kv.1 != p) = true := by simp [hk]
      rw [List.filter_cons, h1]
      simp only [if_true]
      by_cases hq : kv.1 = q
      · rw [List.find?_cons_of_pos _ (by simp [hq]), List.find?_cons_of_pos _ (by simp [hq])]
      · rw [List.find?_cons_of_neg _ (by simp [hq]), List.find?_cons_of_neg _ (by simp [hq])]
        exact ih

theorem lookupEnv_envUpdate (st : KState) (id : Nat) (f : Env → Env)
    (hid : ∀ e, (f e).env_id = e.env_id) (x : Nat) :
    lookupEnv (envUpdate st id f) x
      = (lookupEnv st x).map (fun e => if e.env_id = id then f e else e) := by
  unfold lookupEnv envUpdate
  apply find?_map_pred
  intro e
  by_cases h : e.env_id = id
  · simp [h, hid]
  · simp [h]

theorem lookupEnv_some_id (st : KState) (x : Nat) (e : Env)
    (h : lookupEnv st x = some e) : e.env_id = x := by
  unfold lookupEnv at h
  simpa using List.find?_some h

theorem lookupEnv_envUpdate_self (st : KState) (e : Env) (f : Env → Env)
    (hid : ∀ x, (f x).env_id = x.env_id)
    (h : lookupEnv st e.env_id = some e) :
    lookupEnv (envUpdate st e.env_id f) e.env_id = some (f e) := by
  rw [lookupEnv_envUpdate st e.env_id f hid, h]
  simp

theorem envid2env_lookup (st : KState) (envid : Nat) (cp : Bool) (e : Env)
    (h : envid2env st envid cp = some e) : lookupEnv st e.env_id = some e := by
  unfold envid2env at h
  by_cases h0 : envid = 0
  · rw [if_pos h0] at h
    rw [lookupEnv_some_id st st.curenv_id e h]
    exact h
  · rw [if_neg h0] at h
    rcases hl : lookupEnv st envid with _ | e0
    · rw [hl] at h
      simp at h
    · simp only [hl] at h
      split_ifs at h with h1 h2
      simp only [Option.some.injEq] at h
      rw [← h, lookupEnv_some_id st envid e0 hl]
      exact hl

theorem envid2env_envUpdate_nocheck (st : KState) (envid : Nat) (e : Env) (f : Env → Env)
    (h : envid2env st envid false = some e)
    (hid : ∀ x, (f x).env_id = x.env_id)
    (hfree : ∀ x, (f x).env_status ≠ EnvStatus.ENV_FREE) :
    envid2env (envUpdate st e.env_id f) envid false = some (f e) := by
  unfold envid2env at h ⊢
  by_cases h0 : envid = 0
  · rw [if_pos h0] at h ⊢
    have hc : (envUpdate st e.env_id f).curenv_id = st.curenv_id := rfl
    rw [hc, lookupEnv_envUpdate st e.env_id f hid, h]
    simp
  · rw [if_neg h0] at h ⊢
    rcases hl : lookupEnv st envid with _ | e0
    · rw [hl] at h
      simp at h
    · simp only [hl] at h
      split_ifs at h with h1 h2
      simp only [Option.some.injEq] at h
      rw [lookupEnv_envUpdate st e.env_id f hid, hl, ← h]
      simp [hfree e0]

theorem envid2env_envUpdate_check (st : KState) (envid : Nat) (e : Env) (f : Env → Env)
    (h : envid2env st envid true = some e)
    (hid : ∀ x, (f x).env_id = x.env_id)
    (hstat : ∀ x, (f x).env_status = x.env_status)
    (hpar : ∀ x, (f x).env_parent_id = x.env_parent_id) :
    envid2env (envUpdate st e.env_id f) envid true = some (f e) := by
  unfold envid2env at h ⊢
  by_cases h0 : envid = 0
  · rw [if_pos h0] at h ⊢
    have hc : (envUpdate st e.env_id f).curenv_id = st.curenv_id := rfl
    rw [hc, lookupEnv_envUpdate st e.env_id f hid, h]
    simp
  · rw [if_neg h0] at h ⊢
    rcases hl : lookupEnv st envid with _ | e0
    · rw [hl] at h
      simp at h
    · simp only [hl] at h
      split_ifs at h with h1 h2
      simp only [Option.some.injEq] at h
      rw [lookupEnv_envUpdate st e.env_id f hid, hl, ← h]
      simp only [not_and] at h2
      simp [envUpdate, hid, hstat, hpar, h1]
      intro ha
      exact not_not.mp (h2 trivial ha)

theorem pgLookup_pgErase_self (pd : PgDir) (va : Nat) :
    pgLookup (pgErase pd va) va = none := by
  unfold pgLookup pgErase
  rw [find?_filter_ne_none]
  rfl

theorem pgLookup_pgSet_self (pd : PgDir) (va : Nat) (e : PgEntry) :
    pgLookup (pgSet pd va e) va = some e := by
  unfold pgLookup pgSet
  rw [List.find?_cons_of_pos _ (by simp)]
  rfl

theorem page_remove_unmapped (ph : PhysMem) (pd : PgDir) (va : Nat)
    (h : pgLookup pd va = none) : page_remove ph pd va = (ph, pd) := by
  unfold page_remove
  rw [h]

theorem refGet_refErase_self (l : List (Nat × Nat)) (p : Nat) :
    refGet (refErase l p) p = 0 := by
  unfold refGet refErase
  rw [find?_filter_ne_none]
  rfl

theorem refGet_refSet_self (l : List (Nat × Nat)) (p c : Nat) :
    refGet (refSet l p c) p = c := by
  unfold refGet refSet
  rw [List.find?_cons_of_pos _ (by simp)]
  rfl

theorem refGet_refSet_ne (l : List (Nat × Nat)) (p c q : Nat) (h : q ≠ p) :
    refGet (refSet l p c) q = refGet l q := by
  unfold refGet refSet refErase
  rw [List.find?_cons_of_neg _ (by simp; omega), find?_filter_ne_other l p q h]

theorem refGet_physIncref_ne (ph : PhysMem) (p q : Nat) (h : q ≠ p) :
    refGet (physIncref ph p).refcnt q = refGet ph.refcnt q := by
  unfold physIncref
  exact refGet_refSet_ne ph.refcnt p _ q h

theorem refGet_physDecref_self (ph : PhysMem) (p : Nat) :
    refGet (physDecref ph p).refcnt p = refGet ph.refcnt p - 1 := by
  unfold physDecref page_free
  by_cases h : refGet ph.refcnt p - 1 = 0
  · rw [if_pos h, h]
    exact refGet_refErase_self ph.refcnt p
  · rw [if_neg h]
    exact refGet_refSet_self ph.refcnt p _

theorem land_compl32_land_self (x m : Nat) (hm : m < 2 ^ 32) :
    (x &&& compl32 m) &&& m = 0 := by
  apply Nat.eq_of_testBit_eq
  intro i
  simp only [Nat.testBit_land, Nat.testBit_xor, Nat.zero_testBit, compl32, mask32]
  by_cases hb : m.testBit i
  · have hi : i < 32 := by
      by_contra hge
      have hp : (2 : Nat) ^ 32 ≤ 2 ^ i := Nat.pow_le_pow_right (by norm_num) (by omega)
      have : m.testBit i = false := Nat.testBit_lt_two_pow (lt_of_lt_of_le hm hp)
      simp [this] at hb
    have hm32 : (0xFFFFFFFF : Nat) = 2 ^ 32 - 1 := by norm_num
    have hmask : (0xFFFFFFFF : Nat).testBit i = true := by
      rw [hm32, Nat.testBit_two_pow_sub_one]
      simp [hi]
    simp [hb, hmask]
  · simp [hb]

theorem eflags_clamp_iopl_eq_zero (x : Nat) :
    ((x ||| FL_IF) &&& compl32 FL_IOPL_MASK) &&& FL_IOPL_MASK = 0 :=
  land_compl32_land_self (x ||| FL_IF) FL_IOPL_MASK (by norm_num [FL_IOPL_MASK])

theorem eflags_clamp_if_ne_zero (x : Nat) :
    ((x ||| FL_IF) &&& compl32 FL_IOPL_MASK) &&& FL_IF ≠ 0 := by
  intro h
  have hb : (((x ||| FL_IF) &&& compl32 FL_IOPL_MASK) &&& FL_IF).testBit 9 = false := by
    rw [h]
    exact Nat.zero_testBit 9
  rw [Nat.testBit_land, Nat.testBit_land, Nat.testBit_lor] at hb
  have h1 : (FL_IF : Nat).testBit 9 = true := by decide
  have h2 : (compl32 FL_IOPL_MASK).testBit 9 = true := by decide
  simp [h1, h2] at hb

theorem pteWord_lor_PTE_W_ne_zero (e : PgEntry) : pteWord e ||| PTE_W ≠ 0 := by
  intro h
  have hb : (pteWord e ||| PTE_W).testBit 1 = false := by
    rw [h]
    exact Nat.zero_testBit 1
  rw [Nat.testBit_lor] at hb
  have h1 : (PTE_W : Nat).testBit 1 = true := by decide
  simp [h1] at hb

theorem pgLookup_page_remove_self (ph : PhysMem) (pd : PgDir) (va : Nat) :
    pgLookup (page_remove ph pd va).2 va = none := by
  unfold page_remove
  rcases hlk : pgLookup pd va with _ | ent
  · exact hlk
  · exact pgLookup_pgErase_self pd va

theorem zeroed_physDecref (ph : PhysMem) (p : Nat) :
    (physDecref ph p).zeroed = ph.zeroed := by
  unfold physDecref page_free
  dsimp only
  split_ifs <;> rfl

/-- Claim C6: when both environments resolve with caller permission, both
addresses pass the alignment and UTOP checks, the permission word passes the
mask check, perm requests the write bit and the source page-table entry has
the write bit clear, sys_page_map returns -E_INVAL and leaves the whole
kernel state, in particular the destination address space, unchanged. -/
theorem c6_page_map_ro_write_inval (st : KState) (srcenvid srcva dstenvid dstva perm : Nat)
    (srcenv dstenv : Env) (entry : PgEntry)
    (hs : envid2env st srcenvid true = some srcenv)
    (hd : envid2env st dstenvid true = some dstenv)
    (hsva : srcva < UTOP) (hsal : srcva % PGSIZE = 0)
    (hdva : dstva < UTOP) (hdal : dstva % PGSIZE = 0)
    (hup : perm &&& (PTE_U ||| PTE_P) = (PTE_U ||| PTE_P))
    (hmask : perm &&& compl32 PTE_SYSCALL = 0)
    (hW : perm &&& PTE_W ≠ 0)
    (hlk : pgLookup srcenv.env_pgdir srcva = some entry)
    (hro : pteWord entry &&& PTE_W = 0) :
    sys_page_map st srcenvid srcva dstenvid dstva perm = (-(E_INVAL : Int), st) := by
  unfold sys_page_map
  simp only [hs, hd, hlk]
  rw [if_neg (by push_neg; exact ⟨hsva, hsal⟩)]
  rw [if_neg (by push_neg; exact ⟨hdva, hdal⟩)]
  rw [if_neg (by unfold badPerm; push_neg; exact ⟨hup, hmask⟩)]
  rw [if_pos ⟨hW, hro⟩]

/-- Claim C6 witness: a concrete read-only source mapping with a
write-requesting permission word fails INVAL and changes nothing. -/
theorem c6_witness :
    envid2env stA 1 true = some curEnv0 ∧
    envid2env stA 2 true = some destEnv0 ∧
    pgLookup curEnv0.env_pgdir 0x2000 = some { page := 7, perm := 5 } ∧
    pteWord { page := 7, perm := 5 } &&& PTE_W = 0 ∧
    sys_page_map stA 1 0x2000 2 0x4000 7 = (-(E_INVAL : Int), stA) :=
  ⟨by decide, by decide, by decide, by decide,
   c6_page_map_ro_write_inval stA 1 0x2000 2 0x4000 7 curEnv0 destEnv0
     { page := 7, perm := 5 } (by decide) (by decide) (by decide) (by decide)
     (by decide) (by decide) (by decide) (by decide) (by decide) (by decide)
     (by decide)⟩

/-- Claim C1: the specification states that when the destination is
receive-blocked with its advertised address below UTOP and the sender's
srcva is below UTOP, page-aligned and mapped, and perm requests the write
bit while the sender's page-table entry at srcva lacks the write bit, the
send fails with -E_INVAL and no page is transferred.  The code transcribes
this guard as a bitwise or of the entry word with PTE_W, which is never
zero, so the guard can never fire: at a concrete state satisfying every
premise the call returns 0, the read-only frame is mapped into the
destination with the write bit granted, and the recorded permissions are
the requested ones.  This contradicts the function's own error contract,
so the claim is a bug in the code, not in the specification. -/
theorem c1_ipc_send_ro_write_not_inval :
    envid2env stA 2 false = some destEnv0 ∧
    destEnv0.env_ipc_recving = true ∧
    destEnv0.env_ipc_dstva < UTOP ∧
    (0x2000 : Nat) < UTOP ∧ (0x2000 : Nat) % PGSIZE = 0 ∧
    pgLookup curEnv0.env_pgdir 0x2000 = some { page := 7, perm := 5 } ∧
    (7 : Nat) &&& PTE_W ≠ 0 ∧
    pteWord { page := 7, perm := 5 } &&& PTE_W = 0 ∧
    (sys_ipc_try_send stA 2 42 0x2000 7).1 = 0 ∧
    (sys_ipc_try_send stA 2 42 0x2000 7).1 ≠ -(E_INVAL : Int) ∧
    pgLookup (envGetD (sys_ipc_try_send stA 2 42 0x2000 7).2 2).env_pgdir 0x1000
      = some { page := 7, perm := 7 } ∧
    (envGetD (sys_ipc_try_send stA 2 42 0x2000 7).2 2).env_ipc_perm = 7 := by
  refine ⟨by decide, by decide, by decide, by decide, by decide, by decide,
          by decide, by decide, by decide, by decide, by decide, by decide⟩

/-- Claim C9: when the destination resolves and is receive-blocked with an
advertised receive address at or above UTOP, sys_ipc_try_send succeeds with
recorded permissions zero for every source address and permission word, and
no page is transferred: the physical allocator state and the destination's
address space are unchanged. -/
theorem c9_ipc_send_high_dstva_no_validation (st : KState) (envid value srcva perm : Nat)
    (e : Env)
    (hres : envid2env st envid false = some e)
    (hrecv : e.env_ipc_recving = true)
    (hdst : UTOP ≤ e.env_ipc_dstva) :
    (sys_ipc_try_send st envid value srcva perm).1 = 0 ∧
    (sys_ipc_try_send st envid value srcva perm).2.phys = st.phys ∧
    (envGetD (sys_ipc_try_send st envid value srcva perm).2 e.env_id).env_ipc_perm = 0 ∧
    (envGetD (sys_ipc_try_send st envid value srcva perm).2 e.env_id).env_pgdir
      = e.env_pgdir := by
  have heq : sys_ipc_try_send st envid value srcva perm
      = (0, ipcFinish st e.env_id (curEnvD st).env_id value 0) := by
    unfold sys_ipc_try_send
    simp only [hres]
    rw [if_neg (by simp [hrecv]), if_pos (not_lt.mpr hdst)]
  have hl : lookupEnv st e.env_id = some e := envid2env_lookup st envid false e hres
  have hl2 : lookupEnv (ipcFinish st e.env_id (curEnvD st).env_id value 0) e.env_id
      = some { e with env_ipc_recving := false,
                      env_ipc_from := (curEnvD st).env_id,
                      env_ipc_value := value,
                      env_ipc_perm := 0,
                      env_status := EnvStatus.ENV_RUNNABLE,
                      env_tf := { e.env_tf with
                                  tf_regs := { e.env_tf.tf_regs with reg_eax := 0 } } } := by
    unfold ipcFinish
    exact lookupEnv_envUpdate_self st e _ (fun x => rfl) hl
  rw [heq]
  refine ⟨rfl, rfl, ?_, ?_⟩
  · unfold envGetD
    rw [hl2]
    rfl
  · unfold envGetD
    rw [hl2]
    rfl

/-- Claim C9 witness: a misaligned, unmapped source address and a permission
word with bits outside the permitted mask still succeed against a
destination advertising a receive address at UTOP. -/
theorem c9_witness :
    envid2env stA 3 false = some destEnvHi ∧
    destEnvHi.env_ipc_recving = true ∧
    UTOP ≤ destEnvHi.env_ipc_dstva ∧
    (0x123 : Nat) % PGSIZE ≠ 0 ∧
    pgLookup curEnv0.env_pgdir 0x123 = none ∧
    (0x10000 : Nat) &&& compl32 PTE_SYSCALL ≠ 0 ∧
    (sys_ipc_try_send stA 3 42 0x123 0x10000).1 = 0 ∧
    (envGetD (sys_ipc_try_send stA 3 42 0x123 0x10000).2 3).env_ipc_perm = 0 :=
  ⟨by decide, by decide, by decide, by decide, by decide, by decide,
   (c9_ipc_send_high_dstva_no_validation stA 3 42 0x123 0x10000 destEnvHi
     (by decide) (by decide) (by decide)).1,
   (c9_ipc_send_high_dstva_no_validation stA 3 42 0x123 0x10000 destEnvHi
     (by decide) (by decide) (by decide)).2.2.1⟩

/-- Claim C3: for a user-mode page fault in an environment with a registered
upcall, when the trap-time stack pointer lies in
[UXSTACKTOP - PGSIZE, UXSTACKTOP) the new User Trap Frame is written at
trap-time esp minus 4 (one scratch word) minus the frame size, and otherwise
at UXSTACKTOP minus the frame size; in both cases the environment resumes at
the registered upcall entry with its stack pointer at the written frame. -/
theorem c3_page_fault_upcall_layout (cur : Env) (fault_va : Nat)
    (hcs : ¬ cur.env_tf.tf_cs &&& 3 = 0)
    (hup : cur.env_pgfault_upcall ≠ 0)
    (hok : user_mem_check_range cur.env_pgdir
      ((if UXSTACKTOP - PGSIZE ≤ cur.env_tf.tf_esp ∧ cur.env_tf.tf_esp < UXSTACKTOP
        then cur.env_tf.tf_esp - 4 else UXSTACKTOP) - SIZEOF_UTRAPFRAME)
      SIZEOF_UTRAPFRAME (PTE_U ||| PTE_W ||| PTE_P) = true) :
    page_fault_handler cur fault_va = PFResult.resume
      { cur with env_tf := { cur.env_tf with
          tf_esp := (if UXSTACKTOP - PGSIZE ≤ cur.env_tf.tf_esp ∧ cur.env_tf.tf_esp < UXSTACKTOP
                     then cur.env_tf.tf_esp - 4 else UXSTACKTOP) - SIZEOF_UTRAPFRAME,
          tf_eip := cur.env_pgfault_upcall } }
      ((if UXSTACKTOP - PGSIZE ≤ cur.env_tf.tf_esp ∧ cur.env_tf.tf_esp < UXSTACKTOP
        then cur.env_tf.tf_esp - 4 else UXSTACKTOP) - SIZEOF_UTRAPFRAME)
      { utf_fault_va := fault_va, utf_err := cur.env_tf.tf_err,
        utf_regs := cur.env_tf.tf_regs, utf_eip := cur.env_tf.tf_eip,
        utf_eflags := cur.env_tf.tf_eflags, utf_esp := cur.env_tf.tf_esp } := by
  unfold page_fault_handler
  rw [if_neg hcs, if_pos hup]
  dsimp only
  rw [if_pos hok]

/-- Claim C3 witness: a fault with trap-time stack pointer exactly
UXSTACKTOP - 1 takes the recursive layout, landing the frame at
UXSTACKTOP - 1 - 4 - 52 with the resume registers set accordingly. -/
theorem c3_witness :
    pfEnv0.env_tf.tf_esp = UXSTACKTOP - 1 ∧
    UXSTACKTOP - PGSIZE ≤ UXSTACKTOP - 1 ∧ UXSTACKTOP - 1 < UXSTACKTOP ∧
    page_fault_handler pfEnv0 0xDEAD = PFResult.resume
      { pfEnv0 with env_tf := { pfEnv0.env_tf with
          tf_esp := UXSTACKTOP - 1 - 4 - SIZEOF_UTRAPFRAME,
          tf_eip := pfEnv0.env_pgfault_upcall } }
      (UXSTACKTOP - 1 - 4 - SIZEOF_UTRAPFRAME)
      { utf_fault_va := 0xDEAD, utf_err := pfEnv0.env_tf.tf_err,
        utf_regs := pfEnv0.env_tf.tf_regs, utf_eip := pfEnv0.env_tf.tf_eip,
        utf_eflags := pfEnv0.env_tf.tf_eflags, utf_esp := UXSTACKTOP - 1 } := by
  have h := c3_page_fault_upcall_layout pfEnv0 0xDEAD (by decide) (by decide) (by decide)
  exact ⟨by decide, by decide, by decide, h⟩

/-- Claim C4: when the environment id resolves with caller permission,
sys_page_alloc returns -E_INVAL exactly when the address is at or above
UTOP, or not page-aligned, or the permission word lacks the user or present
bit or sets a bit outside the system-permitted mask; in particular address
UTOP fails INVAL while address UTOP - PGSIZE passes the address check and
can only fail INVAL for permission reasons. -/
theorem c4_page_alloc_inval_iff (st : KState) (envid va perm : Nat) (e : Env)
    (h : envid2env st envid true = some e) :
    ((sys_page_alloc st envid va perm).1 = -(E_INVAL : Int) ↔
      (UTOP ≤ va ∨ va % PGSIZE ≠ 0 ∨
        perm &&& (PTE_U ||| PTE_P) ≠ (PTE_U ||| PTE_P) ∨
        perm &&& compl32 PTE_SYSCALL ≠ 0)) ∧
    (sys_page_alloc st envid UTOP perm).1 = -(E_INVAL : Int) ∧
    ((sys_page_alloc st envid (UTOP - PGSIZE) perm).1 = -(E_INVAL : Int) ↔
      (perm &&& (PTE_U ||| PTE_P) ≠ (PTE_U ||| PTE_P) ∨
        perm &&& compl32 PTE_SYSCALL ≠ 0)) := by
  have main : ∀ w : Nat, ((sys_page_alloc st envid w perm).1 = -(E_INVAL : Int) ↔
      (UTOP ≤ w ∨ w % PGSIZE ≠ 0 ∨
        perm &&& (PTE_U ||| PTE_P) ≠ (PTE_U ||| PTE_P) ∨
        perm &&& compl32 PTE_SYSCALL ≠ 0)) := by
    intro w
    unfold sys_page_alloc
    simp only [h]
    by_cases h1 : UTOP ≤ w ∨ w % PGSIZE ≠ 0
    · rw [if_pos h1]
      constructor
      · intro _
        rcases h1 with h1 | h1
        · exact Or.inl h1
        · exact Or.inr (Or.inl h1)
      · intro _
        rfl
    · rw [if_neg h1]
      push_neg at h1
      by_cases h2 : badPerm perm
      · rw [if_pos h2]
        unfold badPerm at h2
        constructor
        · intro _
          rcases h2 with h2 | h2
          · exact Or.inr (Or.inr (Or.inl h2))
          · exact Or.inr (Or.inr (Or.inr h2))
        · intro _
          rfl
      · rw [if_neg h2]
        unfold badPerm at h2
        push_neg at h2
        constructor
        · intro hval
          rcases hpa : page_alloc st.phys ALLOC_ZERO with _ | ⟨pp, ph1⟩
          · rw [hpa] at hval
            simp only [E_NO_MEM, E_INVAL] at hval
            omega
          · rw [hpa] at hval
            simp only [E_INVAL] at hval
            omega
        · intro hval
          rcases hval with hv | hv | hv | hv
          · exact absurd hv (not_le.mpr h1.1)
          · exact absurd h1.2 hv
          · exact absurd h2.1 hv
          · exact absurd h2.2 hv
  refine ⟨main va, ?_, ?_⟩
  · exact (main UTOP).mpr (Or.inl le_rfl)
  · rw [main (UTOP - PGSIZE)]
    have hlt : ¬ UTOP ≤ UTOP - PGSIZE := by decide
    have hmod : ¬ (UTOP - PGSIZE) % PGSIZE ≠ 0 := by decide
    constructor
    · intro hv
      rcases hv with hv | hv | hv | hv
      · exact absurd hv hlt
      · exact absurd hv hmod
      · exact Or.inl hv
      · exact Or.inr hv
    · intro hv
      rcases hv with hv | hv
      · exact Or.inr (Or.inr (Or.inl hv))
      · exact Or.inr (Or.inr (Or.inr hv))

/-- Claim C4 witness: with the caller itself as target, address UTOP fails
INVAL, address UTOP - PGSIZE with a good permission word does not fail
INVAL, and a permission word with a stray bit fails INVAL at an otherwise
valid address. -/
theorem c4_witness :
    envid2env stA 1 true = some curEnv0 ∧
    (sys_page_alloc stA 1 UTOP 7).1 = -(E_INVAL : Int) ∧
    ¬ (sys_page_alloc stA 1 (UTOP - PGSIZE) 7).1 = -(E_INVAL : Int) ∧
    (sys_page_alloc stA 1 0x4000 0x10007).1 = -(E_INVAL : Int) := by
  have h1 := (c4_page_alloc_inval_iff stA 1 (UTOP - PGSIZE) 7 curEnv0 (by decide)).2.2
  have h2 := (c4_page_alloc_inval_iff stA 1 UTOP 7 curEnv0 (by decide)).2.1
  have h3 := (c4_page_alloc_inval_iff stA 1 0x4000 0x10007 curEnv0 (by decide)).1
  refine ⟨by decide, h2, ?_, ?_⟩
  · intro hv
    have := h1.mp hv
    rcases this with hv' | hv'
    · exact hv' (by decide)
    · exact hv' (by decide)
  · exact h3.mpr (by decide)

/-- Claim C5: after every successful sys_env_set_trapframe, the target's
saved trap frame equals the supplied frame except that the data-, extra- and
stack-segment selectors are the user data selector with RPL 3, the code
selector is the user code selector with RPL 3, the interrupt-enable flag is
set, and the I/O privilege level bits are zero. -/
theorem c5_env_set_trapframe_clamps (st : KState) (envid tfPtr : Nat) (tfVal : Trapframe)
    (e : Env)
    (hres : envid2env st envid true = some e)
    (hchk : user_mem_check_range e.env_pgdir tfPtr SIZEOF_TRAPFRAME PTE_U = true) :
    (sys_env_set_trapframe st envid tfPtr tfVal).1 = 0 ∧
    (envGetD (sys_env_set_trapframe st envid tfPtr tfVal).2 e.env_id).env_tf.tf_regs
      = tfVal.tf_regs ∧
    (envGetD (sys_env_set_trapframe st envid tfPtr tfVal).2 e.env_id).env_tf.tf_trapno
      = tfVal.tf_trapno ∧
    (envGetD (sys_env_set_trapframe st envid tfPtr tfVal).2 e.env_id).env_tf.tf_err
      = tfVal.tf_err ∧
    (envGetD (sys_env_set_trapframe st envid tfPtr tfVal).2 e.env_id).env_tf.tf_eip
      = tfVal.tf_eip ∧
    (envGetD (sys_env_set_trapframe st envid tfPtr tfVal).2 e.env_id).env_tf.tf_esp
      = tfVal.tf_esp ∧
    (envGetD (sys_env_set_trapframe st envid tfPtr tfVal).2 e.env_id).env_tf.tf_ds
      = (GD_UD ||| 3) ∧
    (envGetD (sys_env_set_trapframe st envid tfPtr tfVal).2 e.env_id).env_tf.tf_es
      = (GD_UD ||| 3) ∧
    (envGetD (sys_env_set_trapframe st envid tfPtr tfVal).2 e.env_id).env_tf.tf_ss
      = (GD_UD ||| 3) ∧
    (envGetD (sys_env_set_trapframe st envid tfPtr tfVal).2 e.env_id).env_tf.tf_cs
      = (GD_UT ||| 3) ∧
    (envGetD (sys_env_set_trapframe st envid tfPtr tfVal).2 e.env_id).env_tf.tf_eflags
      = (tfVal.tf_eflags ||| FL_IF) &&& compl32 FL_IOPL_MASK ∧
    (envGetD (sys_env_set_trapframe st envid tfPtr tfVal).2 e.env_id).env_tf.tf_eflags
      &&& FL_IF ≠ 0 ∧
    (envGetD (sys_env_set_trapframe st envid tfPtr tfVal).2 e.env_id).env_tf.tf_eflags
      &&& FL_IOPL_MASK = 0 := by
  have heq : sys_env_set_trapframe st envid tfPtr tfVal
      = (0, envUpdate st e.env_id (fun en =>
          { en with env_tf :=
            { tfVal with
              tf_ds := GD_UD ||| 3,
              tf_es := GD_UD ||| 3,
              tf_ss := GD_UD ||| 3,
              tf_cs := GD_UT ||| 3,
              tf_eflags := (tfVal.tf_eflags ||| FL_IF) &&& compl32 FL_IOPL_MASK } })) := by
    unfold sys_env_set_trapframe
    simp only [hres]
    rw [if_neg (by simp [hchk])]
  have hl : lookupEnv st e.env_id = some e := envid2env_lookup st envid true e hres
  have hl2 := lookupEnv_envUpdate_self st e
    (fun en => { en with env_tf :=
      { tfVal with
        tf_ds := GD_UD ||| 3,
        tf_es := GD_UD ||| 3,
        tf_ss := GD_UD ||| 3,
        tf_cs := GD_UT ||| 3,
        tf_eflags := (tfVal.tf_eflags ||| FL_IF) &&& compl32 FL_IOPL_MASK } })
    (fun x => rfl) hl
  rw [heq]
  unfold envGetD
  rw [hl2]
  exact ⟨rfl, rfl, rfl, rfl, rfl, rfl, rfl, rfl, rfl, rfl, rfl,
         eflags_clamp_if_ne_zero tfVal.tf_eflags,
         eflags_clamp_iopl_eq_zero tfVal.tf_eflags⟩

/-- Claim C5 witness: a frame supplied with kernel selectors, interrupts
disabled and IOPL 3 comes back with user selectors at RPL 3, the
interrupt-enable flag on and the IOPL bits cleared. -/
theorem c5_witness :
    envid2env stA 2 true = some destEnv0 ∧
    user_mem_check_range destEnv0.env_pgdir 0x5000 SIZEOF_TRAPFRAME PTE_U = true ∧
    (sys_env_set_trapframe stA 2 0x5000 { tf0 with tf_eflags := 0x3002, tf_cs := 8 }).1 = 0 ∧
    (envGetD (sys_env_set_trapframe stA 2 0x5000
        { tf0 with tf_eflags := 0x3002, tf_cs := 8 }).2 2).env_tf.tf_cs = (GD_UT ||| 3) ∧
    (envGetD (sys_env_set_trapframe stA 2 0x5000
        { tf0 with tf_eflags := 0x3002, tf_cs := 8 }).2 2).env_tf.tf_eflags &&& FL_IF ≠ 0 ∧
    (envGetD (sys_env_set_trapframe stA 2 0x5000
        { tf0 with tf_eflags := 0x3002, tf_cs := 8 }).2 2).env_tf.tf_eflags
      &&& FL_IOPL_MASK = 0 := by
  have h := c5_env_set_trapframe_clamps stA 2 0x5000
    { tf0 with tf_eflags := 0x3002, tf_cs := 8 } destEnv0 (by decide) (by decide)
  exact ⟨by decide, by decide, h.1, h.2.2.2.2.2.2.2.2.2.1,
         h.2.2.2.2.2.2.2.2.2.2.2.1, h.2.2.2.2.2.2.2.2.2.2.2.2⟩

/-- Claim C7: every successful sys_exofork creates a new environment whose
status is ENV_NOT_RUNNABLE and whose saved trap frame is a copy of the
caller's saved frame with the result register forced to zero, and returns
the child identifier to the caller; the zero in the child's saved result
register is what the child observes when later run. -/
theorem c7_exofork_child (st : KState) (cur : Env) (cid : Nat) (rest : List Nat)
    (hcur : lookupEnv st st.curenv_id = some cur)
    (hfree : st.free_env_ids = cid :: rest)
    (hfresh : lookupEnv st cid = none) :
    (sys_exofork st).1 = Int.ofNat cid ∧
    (envGetD (sys_exofork st).2 cid).env_status = EnvStatus.ENV_NOT_RUNNABLE ∧
    (envGetD (sys_exofork st).2 cid).env_tf
      = { cur.env_tf with tf_regs := { cur.env_tf.tf_regs with reg_eax := 0 } } ∧
    (envGetD (sys_exofork st).2 cid).env_tf.tf_regs.reg_eax = 0 ∧
    (envGetD (sys_exofork st).2 cid).env_parent_id = cur.env_id := by
  have hcd : curEnvD st = cur := by
    unfold curEnvD envGetD
    rw [hcur]
    rfl
  have heq : sys_exofork st
      = (Int.ofNat cid,
         envUpdate { st with free_env_ids := rest,
                             envs := st.envs ++ [newEnv cid cur.env_id] } cid
           (fun en => { en with env_status := EnvStatus.ENV_NOT_RUNNABLE,
                                env_tf := { cur.env_tf with
                                  tf_regs := { cur.env_tf.tf_regs with reg_eax := 0 } } })) := by
    unfold sys_exofork env_alloc
    rw [hcd, hfree]
  have hl1 : lookupEnv
      (KState.mk st.phys (st.envs ++ [newEnv cid cur.env_id]) st.curenv_id rest) cid
      = some (newEnv cid cur.env_id) := by
    unfold lookupEnv
    show (st.envs ++ [newEnv cid cur.env_id]).find? (fun e => e.env_id == cid)
      = some (newEnv cid cur.env_id)
    rw [List.find?_append]
    unfold lookupEnv at hfresh
    rw [hfresh]
    rw [List.find?_cons_of_pos _ (by simp [newEnv])]
    rfl
  have hl2 := lookupEnv_envUpdate
    (KState.mk st.phys (st.envs ++ [newEnv cid cur.env_id]) st.curenv_id rest)
    cid
    (fun en => { en with env_status := EnvStatus.ENV_NOT_RUNNABLE,
                         env_tf := { cur.env_tf with
                           tf_regs := { cur.env_tf.tf_regs with reg_eax := 0 } } })
    (fun x => rfl) cid
  rw [heq]
  unfold envGetD
  rw [hl2, hl1]
  refine ⟨rfl, ?_, ?_, ?_, ?_⟩ <;> simp [newEnv]

/-- Claim C7 witness: forking from the concrete caller returns child id 5,
whose status is NOT_RUNNABLE, whose frame is the caller's with result
register zero, and whose parent is the caller. -/
theorem c7_witness :
    lookupEnv stA stA.curenv_id = some curEnv0 ∧
    stA.free_env_ids = [5, 6] ∧
    lookupEnv stA 5 = none ∧
    (sys_exofork stA).1 = Int.ofNat 5 ∧
    (envGetD (sys_exofork stA).2 5).env_status = EnvStatus.ENV_NOT_RUNNABLE ∧
    (envGetD (sys_exofork stA).2 5).env_tf.tf_regs.reg_eax = 0 := by
  have h := c7_exofork_child stA curEnv0 5 [6] (by decide) (by decide) (by decide)
  exact ⟨by decide, by decide, by decide, h.1, h.2.1, h.2.2.2.1⟩

theorem list_map_idem {α : Type} (l : List α) (g : α → α) (hg : ∀ x, g (g x) = g x) :
    (l.map g).map g = l.map g := by
  induction l with
  | nil => rfl
  | cons a t ih => simp [hg, ih]

theorem envUpdate_envUpdate_absorb (st : KState) (id : Nat) (f : Env → Env)
    (hid : ∀ x, (f x).env_id = x.env_id) (hff : ∀ x, f (f x) = f x) :
    envUpdate (envUpdate st id f) id f = envUpdate st id f := by
  unfold envUpdate
  dsimp only
  congr 1
  apply list_map_idem
  intro x
  by_cases h : x.env_id = id
  · rw [if_pos h, if_pos (by rw [hid]; exact h)]
    exact hff x
  · rw [if_neg h, if_neg h]

theorem sys_page_unmap_already_unmapped (S : KState) (envid va : Nat) (e' : Env)
    (h : envid2env S envid true = some e')
    (hva : va < UTOP) (hal : va % PGSIZE = 0)
    (hnone : pgLookup e'.env_pgdir va = none) :
    sys_page_unmap S envid va
      = (0, envUpdate S e'.env_id (fun en => { en with env_pgdir := e'.env_pgdir })) := by
  unfold sys_page_unmap
  simp only [h]
  rw [if_neg (by push_neg; exact ⟨hva, hal⟩)]
  rw [page_remove_unmapped S.phys e'.env_pgdir va hnone]

/-- Claim C8: for a target that resolves with caller permission and a
page-aligned address below UTOP, sys_page_unmap returns 0 whether or not a
page is mapped there, and a second identical call also returns 0 and leaves
exactly the state of the first call. -/
theorem c8_page_unmap_idempotent (st : KState) (envid va : Nat) (e : Env)
    (h : envid2env st envid true = some e)
    (hva : va < UTOP) (hal : va % PGSIZE = 0) :
    (sys_page_unmap st envid va).1 = 0 ∧
    (sys_page_unmap (sys_page_unmap st envid va).2 envid va).1 = 0 ∧
    (sys_page_unmap (sys_page_unmap st envid va).2 envid va).2
      = (sys_page_unmap st envid va).2 := by
  have hnotinval : ¬ (UTOP ≤ va ∨ va % PGSIZE ≠ 0) := by push_neg; exact ⟨hva, hal⟩
  have heq1 : sys_page_unmap st envid va
      = (0, envUpdate
          (KState.mk (page_remove st.phys e.env_pgdir va).1 st.envs st.curenv_id st.free_env_ids)
          e.env_id
          (fun en => { en with env_pgdir := (page_remove st.phys e.env_pgdir va).2 })) := by
    unfold sys_page_unmap
    simp only [h]
    rw [if_neg hnotinval]
  have h2 : envid2env
      (KState.mk (page_remove st.phys e.env_pgdir va).1 st.envs st.curenv_id st.free_env_ids)
      envid true = some e := h
  have h3 := envid2env_envUpdate_check
    (KState.mk (page_remove st.phys e.env_pgdir va).1 st.envs st.curenv_id st.free_env_ids)
    envid e
    (fun en => { en with env_pgdir := (page_remove st.phys e.env_pgdir va).2 })
    h2 (fun x => rfl) (fun x => rfl) (fun x => rfl)
  have hnone : pgLookup
      ((fun en : Env => { en with env_pgdir := (page_remove st.phys e.env_pgdir va).2 }) e).env_pgdir va
      = none := pgLookup_page_remove_self st.phys e.env_pgdir va
  have hstep := sys_page_unmap_already_unmapped
    (envUpdate
      (KState.mk (page_remove st.phys e.env_pgdir va).1 st.envs st.curenv_id st.free_env_ids)
      e.env_id
      (fun en => { en with env_pgdir := (page_remove st.phys e.env_pgdir va).2 }))
    envid va
    ((fun en : Env => { en with env_pgdir := (page_remove st.phys e.env_pgdir va).2 }) e)
    h3 hva hal hnone
  have heq2 : sys_page_unmap
      (envUpdate
        (KState.mk (page_remove st.phys e.env_pgdir va).1 st.envs st.curenv_id st.free_env_ids)
        e.env_id
        (fun en => { en with env_pgdir := (page_remove st.phys e.env_pgdir va).2 }))
      envid va
      = (0, envUpdate
          (KState.mk (page_remove st.phys e.env_pgdir va).1 st.envs st.curenv_id st.free_env_ids)
          e.env_id
          (fun en => { en with env_pgdir := (page_remove st.phys e.env_pgdir va).2 })) := by
    rw [hstep]
    show (0, envUpdate (envUpdate
        (KState.mk (page_remove st.phys e.env_pgdir va).1 st.envs st.curenv_id st.free_env_ids)
        e.env_id
        (fun en => { en with env_pgdir := (page_remove st.phys e.env_pgdir va).2 }))
      e.env_id
      (fun en => { en with env_pgdir := (page_remove st.phys e.env_pgdir va).2 })) = _
    rw [envUpdate_envUpdate_absorb
      (KState.mk (page_remove st.phys e.env_pgdir va).1 st.envs st.curenv_id st.free_env_ids)
      e.env_id
      (fun en => { en with env_pgdir := (page_remove st.phys e.env_pgdir va).2 })
      (fun x => rfl) (fun x => rfl)]
  rw [heq1]
  dsimp only
  exact ⟨rfl, by rw [heq2], by rw [heq2]⟩

/-- Claim C8 witness: unmapping the concrete writable mapping twice succeeds
both times with identical final states, and unmapping an address with no
mapping also succeeds. -/
theorem c8_witness :
    envid2env stA 1 true = some curEnv0 ∧
    (sys_page_unmap stA 1 0x3000).1 = 0 ∧
    (sys_page_unmap (sys_page_unmap stA 1 0x3000).2 1 0x3000).1 = 0 ∧
    (sys_page_unmap (sys_page_unmap stA 1 0x3000).2 1 0x3000).2
      = (sys_page_unmap stA 1 0x3000).2 ∧
    pgLookup curEnv0.env_pgdir 0x7000 = none ∧
    (sys_page_unmap stA 1 0x7000).1 = 0 := by
  have h := c8_page_unmap_idempotent stA 1 0x3000 curEnv0 (by decide) (by decide) (by decide)
  have h7 := c8_page_unmap_idempotent stA 1 0x7000 curEnv0 (by decide) (by decide) (by decide)
  exact ⟨by decide, h.1, h.2.1, h.2.2, by decide, h7.1⟩

/-- Claim C10: a successful sys_page_alloc at an address where a page is
already mapped replaces the mapping: the call returns 0, the old frame's
reference count is decremented, and the frame freshly taken from the head of
the allocator free list, zero-filled, is installed at the address with the
requested permissions. -/
theorem c10_page_alloc_replaces (st : KState) (envid va perm : Nat) (e : Env)
    (old : PgEntry) (p : Nat) (rest : List Nat)
    (hres : envid2env st envid true = some e)
    (hva : va < UTOP) (hal : va % PGSIZE = 0)
    (hup : perm &&& (PTE_U ||| PTE_P) = (PTE_U ||| PTE_P))
    (hmask : perm &&& compl32 PTE_SYSCALL = 0)
    (hold : pgLookup e.env_pgdir va = some old)
    (hfree : st.phys.freePages = p :: rest)
    (hpne : old.page ≠ p) :
    (sys_page_alloc st envid va perm).1 = 0 ∧
    pgLookup (envGetD (sys_page_alloc st envid va perm).2 e.env_id).env_pgdir va
      = some { page := p, perm := perm } ∧
    refGet (sys_page_alloc st envid va perm).2.phys.refcnt old.page
      = refGet st.phys.refcnt old.page - 1 ∧
    p ∈ (sys_page_alloc st envid va perm).2.phys.zeroed := by
  have hpa : page_alloc st.phys ALLOC_ZERO
      = some (p, PhysMem.mk st.phys.refcnt rest
                 (p :: st.phys.zeroed.filter (fun q => q != p))) := by
    unfold page_alloc
    simp only [hfree]
    rw [if_pos (by decide)]
  have hins : page_insert
      (PhysMem.mk st.phys.refcnt rest (p :: st.phys.zeroed.filter (fun q => q != p)))
      e.env_pgdir p va perm
      = (physDecref
           (physIncref
             (PhysMem.mk st.phys.refcnt rest (p :: st.phys.zeroed.filter (fun q => q != p))) p)
           old.page,
         pgSet (pgErase e.env_pgdir va) va { page := p, perm := perm }) := by
    unfold page_insert page_remove
    have hlk2 : pgLookup e.env_pgdir va = some old := hold
    rw [hlk2]
  have heq : sys_page_alloc st envid va perm
      = (0, envUpdate
          (KState.mk
            (physDecref
              (physIncref
                (PhysMem.mk st.phys.refcnt rest (p :: st.phys.zeroed.filter (fun q => q != p))) p)
              old.page)
            st.envs st.curenv_id st.free_env_ids)
          e.env_id
          (fun en => { en with
            env_pgdir := pgSet (pgErase e.env_pgdir va) va { page := p, perm := perm } })) := by
    unfold sys_page_alloc
    simp only [hres]
    rw [if_neg (by push_neg; exact ⟨hva, hal⟩)]
    rw [if_neg (by unfold badPerm; push_neg; exact ⟨hup, hmask⟩)]
    rw [hpa]
    simp only [hins]
  have hl : lookupEnv st e.env_id = some e := envid2env_lookup st envid true e hres
  have hl2 : lookupEnv
      (envUpdate
        (KState.mk
          (physDecref
            (physIncref
              (PhysMem.mk st.phys.refcnt rest (p :: st.phys.zeroed.filter (fun q => q != p))) p)
            old.page)
          st.envs st.curenv_id st.free_env_ids)
        e.env_id
        (fun en => { en with
          env_pgdir := pgSet (pgErase e.env_pgdir va) va { page := p, perm := perm } }))
      e.env_id
      = some { e with
          env_pgdir := pgSet (pgErase e.env_pgdir va) va { page := p, perm := perm } } := by
    exact lookupEnv_envUpdate_self
      (KState.mk
        (physDecref
          (physIncref
            (PhysMem.mk st.phys.refcnt rest (p :: st.phys.zeroed.filter (fun q => q != p))) p)
          old.page)
        st.envs st.curenv_id st.free_env_ids)
      e
      (fun en => { en with
        env_pgdir := pgSet (pgErase e.env_pgdir va) va { page := p, perm := perm } })
      (fun x => rfl) hl
  rw [heq]
  refine ⟨rfl, ?_, ?_, ?_⟩
  · unfold envGetD
    rw [hl2]
    exact pgLookup_pgSet_self (pgErase e.env_pgdir va) va { page := p, perm := perm }
  · show refGet (physDecref (physIncref
        (PhysMem.mk st.phys.refcnt rest (p :: st.phys.zeroed.filter (fun q => q != p))) p)
        old.page).refcnt old.page = refGet st.phys.refcnt old.page - 1
    rw [refGet_physDecref_self]
    rw [refGet_physIncref_ne _ p old.page hpne]
  · show p ∈ (physDecref (physIncref
        (PhysMem.mk st.phys.refcnt rest (p :: st.phys.zeroed.filter (fun q => q != p))) p)
        old.page).zeroed
    rw [zeroed_physDecref]
    exact List.mem_cons_self p _

/-- Claim C10 witness: allocating over the concrete read-only mapping at
0x2000 succeeds, installs free-list head frame 20 with the requested
permissions, decrements the old frame's reference count from one to zero,
and records the new frame as zero-filled. -/
theorem c10_witness :
    envid2env stA 1 true = some curEnv0 ∧
    pgLookup curEnv0.env_pgdir 0x2000 = some { page := 7, perm := 5 } ∧
    stA.phys.freePages = [20, 21] ∧
    (sys_page_alloc stA 1 0x2000 7).1 = 0 ∧
    pgLookup (envGetD (sys_page_alloc stA 1 0x2000 7).2 1).env_pgdir 0x2000
      = some { page := 20, perm := 7 } ∧
    refGet (sys_page_alloc stA 1 0x2000 7).2.phys.refcnt 7
      = refGet stA.phys.refcnt 7 - 1 ∧
    20 ∈ (sys_page_alloc stA 1 0x2000 7).2.phys.zeroed := by
  have h := c10_page_alloc_replaces stA 1 0x2000 7 curEnv0 { page := 7, perm := 5 } 20 [21]
    (by decide) (by decide) (by decide) (by decide) (by decide) (by decide)
    (by decide) (by decide)
  exact ⟨by decide, by decide, by decide, h.1, h.2.1, h.2.2.1, h.2.2.2⟩

theorem envid2env_envUpdate_nocheck_pres (st : KState) (envid : Nat) (e : Env) (f : Env → Env)
    (h : envid2env st envid false = some e)
    (hid : ∀ x, (f x).env_id = x.env_id)
    (hstat : ∀ x, (f x).env_status = x.env_status) :
    envid2env (envUpdate st e.env_id f) envid false = some (f e) := by
  unfold envid2env at h ⊢
  by_cases h0 : envid = 0
  · rw [if_pos h0] at h ⊢
    have hc : (envUpdate st e.env_id f).curenv_id = st.curenv_id := rfl
    rw [hc, lookupEnv_envUpdate st e.env_id f hid, h]
    simp
  · rw [if_neg h0] at h ⊢
    rcases hl : lookupEnv st envid with _ | e0
    · rw [hl] at h
      simp at h
    · simp only [hl] at h
      split_ifs at h with h1 h2
      simp only [Option.some.injEq] at h
      rw [lookupEnv_envUpdate st e.env_id f hid, hl, ← h]
      simp [hstat e0, h1]

theorem ipc_send_finish_post (st0 : KState) (envid : Nat) (e0 : Env) (sid value P : Nat)
    (h : envid2env st0 envid false = some e0) :
    (envGetD (ipcFinish st0 e0.env_id sid value P) e0.env_id).env_ipc_recving = false ∧
    (envGetD (ipcFinish st0 e0.env_id sid value P) e0.env_id).env_ipc_from = sid ∧
    (envGetD (ipcFinish st0 e0.env_id sid value P) e0.env_id).env_ipc_value = value ∧
    (envGetD (ipcFinish st0 e0.env_id sid value P) e0.env_id).env_ipc_perm = P ∧
    (envGetD (ipcFinish st0 e0.env_id sid value P) e0.env_id).env_status
      = EnvStatus.ENV_RUNNABLE ∧
    (envGetD (ipcFinish st0 e0.env_id sid value P) e0.env_id).env_tf.tf_regs.reg_eax = 0 ∧
    ∀ v2 s2 p2 : Nat,
      (sys_ipc_try_send (ipcFinish st0 e0.env_id sid value P) envid v2 s2 p2).1
        = -(E_IPC_NOT_RECV : Int) := by
  have hl0 : lookupEnv st0 e0.env_id = some e0 := envid2env_lookup st0 envid false e0 h
  have hpost : lookupEnv (ipcFinish st0 e0.env_id sid value P) e0.env_id
      = some { e0 with
          env_ipc_recving := false,
          env_ipc_from := sid,
          env_ipc_value := value,
          env_ipc_perm := P,
          env_status := EnvStatus.ENV_RUNNABLE,
          env_tf := { e0.env_tf with
            tf_regs := { e0.env_tf.tf_regs with reg_eax := 0 } } } := by
    unfold ipcFinish
    exact lookupEnv_envUpdate_self st0 e0 _ (fun x => rfl) hl0
  have h2 : envid2env (ipcFinish st0 e0.env_id sid value P) envid false
      = some { e0 with
          env_ipc_recving := false,
          env_ipc_from := sid,
          env_ipc_value := value,
          env_ipc_perm := P,
          env_status := EnvStatus.ENV_RUNNABLE,
          env_tf := { e0.env_tf with
            tf_regs := { e0.env_tf.tf_regs with reg_eax := 0 } } } := by
    unfold ipcFinish
    exact envid2env_envUpdate_nocheck st0 envid e0 _ h (fun x => rfl)
      (fun x => by intro hc; exact EnvStatus.noConfusion hc)
  refine ⟨?_, ?_, ?_, ?_, ?_, ?_, ?_⟩
  · unfold envGetD
    rw [hpost]
    rfl
  · unfold envGetD
    rw [hpost]
    rfl
  · unfold envGetD
    rw [hpost]
    rfl
  · unfold envGetD
    rw [hpost]
    rfl
  · unfold envGetD
    rw [hpost]
    rfl
  · unfold envGetD
    rw [hpost]
    rfl
  · intro v2 s2 p2
    unfold sys_ipc_try_send
    simp only [h2]
    simp

/-- Claim C2: after every successful sys_ipc_try_send, the destination's
receive flag is cleared, its sender identifier is the caller's id, its value
is the sent value, its recorded permissions are the requested permissions
when a page was transferred and zero otherwise, its status is RUNNABLE and
its saved result register is zero; consequently any second send to the same
destination before it receives again fails with -E_IPC_NOT_RECV. -/
theorem c2_ipc_send_success_post (st : KState) (envid value srcva perm : Nat) (cur e : Env)
    (hcur : lookupEnv st st.curenv_id = some cur)
    (hres : envid2env st envid false = some e)
    (hsucc : (sys_ipc_try_send st envid value srcva perm).1 = 0) :
    (envGetD (sys_ipc_try_send st envid value srcva perm).2 e.env_id).env_ipc_recving
      = false ∧
    (envGetD (sys_ipc_try_send st envid value srcva perm).2 e.env_id).env_ipc_from
      = cur.env_id ∧
    (envGetD (sys_ipc_try_send st envid value srcva perm).2 e.env_id).env_ipc_value
      = value ∧
    (envGetD (sys_ipc_try_send st envid value srcva perm).2 e.env_id).env_ipc_perm
      = (if e.env_ipc_dstva < UTOP ∧ srcva < UTOP then perm else 0) ∧
    (envGetD (sys_ipc_try_send st envid value srcva perm).2 e.env_id).env_status
      = EnvStatus.ENV_RUNNABLE ∧
    (envGetD (sys_ipc_try_send st envid value srcva perm).2 e.env_id).env_tf.tf_regs.reg_eax
      = 0 ∧
    ∀ value2 srcva2 perm2 : Nat,
      (sys_ipc_try_send (sys_ipc_try_send st envid value srcva perm).2 envid
        value2 srcva2 perm2).1 = -(E_IPC_NOT_RECV : Int) := by
  have hcd : curEnvD st = cur := by
    unfold curEnvD envGetD
    rw [hcur]
    rfl
  cases hrecvB : e.env_ipc_recving with
  | false =>
    exfalso
    have hfail : sys_ipc_try_send st envid value srcva perm
        = (-(E_IPC_NOT_RECV : Int), st) := by
      unfold sys_ipc_try_send
      simp only [hres]
      rw [if_pos hrecvB]
    rw [hfail] at hsucc
    have hv : (-(E_IPC_NOT_RECV : Int)) = 0 := hsucc
    simp only [E_IPC_NOT_RECV] at hv
    omega
  | true =>
    by_cases hdst : e.env_ipc_dstva < UTOP
    · by_cases hsrc : srcva < UTOP
      · -- page-transfer path
        by_cases hal : srcva % PGSIZE ≠ 0
        · exfalso
          have hfail : sys_ipc_try_send st envid value srcva perm
              = (-(E_INVAL : Int), st) := by
            unfold sys_ipc_try_send
            simp only [hres]
            rw [if_neg (by simp [hrecvB]), if_neg (fun hn => hn hdst), if_pos hsrc,
                if_pos hal]
          rw [hfail] at hsucc
          have hv : (-(E_INVAL : Int)) = 0 := hsucc
          simp only [E_INVAL] at hv
          omega
        · by_cases hbp : badPerm perm
          · exfalso
            have hfail : sys_ipc_try_send st envid value srcva perm
                = (-(E_INVAL : Int), st) := by
              unfold sys_ipc_try_send
              simp only [hres]
              rw [if_neg (by simp [hrecvB]), if_neg (fun hn => hn hdst), if_pos hsrc,
                  if_neg hal, if_pos hbp]
            rw [hfail] at hsucc
            have hv : (-(E_INVAL : Int)) = 0 := hsucc
            simp only [E_INVAL] at hv
            omega
          · rcases hlk : pgLookup cur.env_pgdir srcva with _ | entry
            · exfalso
              have hfail : sys_ipc_try_send st envid value srcva perm
                  = (-(E_INVAL : Int), st) := by
                unfold sys_ipc_try_send
                simp only [hres]
                rw [if_neg (by simp [hrecvB]), if_neg (fun hn => hn hdst), if_pos hsrc,
                    if_neg hal, if_neg hbp, hcd]
                simp only [hlk]
              rw [hfail] at hsucc
              have hv : (-(E_INVAL : Int)) = 0 := hsucc
              simp only [E_INVAL] at hv
              omega
            · have heq : sys_ipc_try_send st envid value srcva perm
                  = (0, ipcFinish
                      (envUpdate
                        (KState.mk
                          (page_insert st.phys e.env_pgdir entry.page e.env_ipc_dstva perm).1
                          st.envs st.curenv_id st.free_env_ids)
                        e.env_id
                        (fun en => { en with env_pgdir :=
                          (page_insert st.phys e.env_pgdir entry.page e.env_ipc_dstva perm).2 }))
                      e.env_id cur.env_id value perm) := by
                unfold sys_ipc_try_send
                simp only [hres]
                rw [if_neg (by simp [hrecvB]), if_neg (fun hn => hn hdst), if_pos hsrc,
                    if_neg hal, if_neg hbp, hcd]
                simp only [hlk]
                rw [if_neg (fun hc => pteWord_lor_PTE_W_ne_zero entry hc.2)]
              have hres1 : envid2env
                  (KState.mk
                    (page_insert st.phys e.env_pgdir entry.page e.env_ipc_dstva perm).1
                    st.envs st.curenv_id st.free_env_ids)
                  envid false = some e := hres
              have hres2 := envid2env_envUpdate_nocheck_pres
                (KState.mk
                  (page_insert st.phys e.env_pgdir entry.page e.env_ipc_dstva perm).1
                  st.envs st.curenv_id st.free_env_ids)
                envid e
                (fun en => { en with env_pgdir :=
                  (page_insert st.phys e.env_pgdir entry.page e.env_ipc_dstva perm).2 })
                hres1 (fun x => rfl) (fun x => rfl)
              have hp := ipc_send_finish_post
                (envUpdate
                  (KState.mk
                    (page_insert st.phys e.env_pgdir entry.page e.env_ipc_dstva perm).1
                    st.envs st.curenv_id st.free_env_ids)
                  e.env_id
                  (fun en => { en with env_pgdir :=
                    (page_insert st.phys e.env_pgdir entry.page e.env_ipc_dstva perm).2 }))
                envid
                ((fun en : Env => { en with env_pgdir :=
                  (page_insert st.phys e.env_pgdir entry.page e.env_ipc_dstva perm).2 }) e)
                cur.env_id value perm hres2
              rw [heq]
              dsimp only
              refine ⟨hp.1, hp.2.1, hp.2.2.1, ?_, hp.2.2.2.2.1, hp.2.2.2.2.2.1,
                      hp.2.2.2.2.2.2⟩
              rw [if_pos ⟨hdst, hsrc⟩]
              exact hp.2.2.2.1
      · -- srcva at or above UTOP: no page transferred
        have heq : sys_ipc_try_send st envid value srcva perm
            = (0, ipcFinish st e.env_id cur.env_id value 0) := by
          unfold sys_ipc_try_send
          simp only [hres]
          rw [if_neg (by simp [hrecvB]), if_neg (fun hn => hn hdst), if_neg hsrc, hcd]
        have hp := ipc_send_finish_post st envid e cur.env_id value 0 hres
        rw [heq]
        dsimp only
        refine ⟨hp.1, hp.2.1, hp.2.2.1, ?_, hp.2.2.2.2.1, hp.2.2.2.2.2.1,
                hp.2.2.2.2.2.2⟩
        rw [if_neg (fun hq => hsrc hq.2)]
        exact hp.2.2.2.1
    · -- destination advertises a receive address at or above UTOP
      have heq : sys_ipc_try_send st envid value srcva perm
          = (0, ipcFinish st e.env_id cur.env_id value 0) := by
        unfold sys_ipc_try_send
        simp only [hres]
        rw [if_neg (by simp [hrecvB]), if_pos hdst, hcd]
      have hp := ipc_send_finish_post st envid e cur.env_id value 0 hres
      rw [heq]
      dsimp only
      refine ⟨hp.1, hp.2.1, hp.2.2.1, ?_, hp.2.2.2.2.1, hp.2.2.2.2.2.1,
              hp.2.2.2.2.2.2⟩
      rw [if_neg (fun hq => hdst hq.1)]
      exact hp.2.2.2.1

/-- Claim C2 witness: a concrete successful send with a page transfer sets
every destination IPC field, makes it RUNNABLE with result register zero,
and a second send to the same destination fails IPC_NOT_RECV. -/
theorem c2_witness :
    lookupEnv stA stA.curenv_id = some curEnv0 ∧
    envid2env stA 2 false = some destEnv0 ∧
    (sys_ipc_try_send stA 2 42 0x3000 7).1 = 0 ∧
    (envGetD (sys_ipc_try_send stA 2 42 0x3000 7).2 2).env_ipc_recving = false ∧
    (envGetD (sys_ipc_try_send stA 2 42 0x3000 7).2 2).env_ipc_from = curEnv0.env_id ∧
    (envGetD (sys_ipc_try_send stA 2 42 0x3000 7).2 2).env_ipc_value = 42 ∧
    (envGetD (sys_ipc_try_send stA 2 42 0x3000 7).2 2).env_ipc_perm = 7 ∧
    (envGetD (sys_ipc_try_send stA 2 42 0x3000 7).2 2).env_status
      = EnvStatus.ENV_RUNNABLE ∧
    (envGetD (sys_ipc_try_send stA 2 42 0x3000 7).2 2).env_tf.tf_regs.reg_eax = 0 ∧
    (sys_ipc_try_send (sys_ipc_try_send stA 2 42 0x3000 7).2 2 9 0 0).1
      = -(E_IPC_NOT_RECV : Int) := by
  have h := c2_ipc_send_success_post stA 2 42 0x3000 7 curEnv0 destEnv0
    (by decide) (by decide) (by decide)
  exact ⟨by decide, by decide, by decide, h.1, h.2.1, h.2.2.1,
         h.2.2.2.1.trans (by decide), h.2.2.2.2.1, h.2.2.2.2.2.1,
         h.2.2.2.2.2.2 9 0 0⟩
